import Mathlib

/-!
Shallow embedding of the markdown-editor repository's verifiable logic:
the scroll synchronizer (MarkdownEditor component), the AI service adapter
(aiService), and the file-route helpers (files.ts).
-/

namespace LearnSolo

/-! ## Scroll synchronizer

Embeds `handleEditorScroll` / `handleRendererScroll` from the MarkdownEditor
component.  Pixel quantities are modelled as rationals.  A handler invocation
returns the new `isScrollSyncing` flag together with the list of programmatic
scroll commands it issued (each command is the target scrollTop).
-/

structure ScrollInfo where
  scrollTop : ℚ
  scrollHeight : ℚ
  clientHeight : ℚ
deriving DecidableEq, Repr

/-- `scrollHeight > clientHeight ? scrollTop / (scrollHeight - clientHeight) : 0` -/
def scrollRatio (e : ScrollInfo) : ℚ :=
  if e.scrollHeight > e.clientHeight then e.scrollTop / (e.scrollHeight - e.clientHeight) else 0

/-- `scrollRatio * Math.max(0, scrollHeight - clientHeight)` of the other surface. -/
def targetScrollTop (e other : ScrollInfo) : ℚ :=
  scrollRatio e * max 0 (other.scrollHeight - other.clientHeight)

/-- Editor-side scroll handler: bail out when the guard is set or the renderer
ref is not mounted; otherwise set the guard and command the renderer. -/
def handleEditorScroll (isScrollSyncing : Bool) (rendererMounted : Bool)
    (e renderer : ScrollInfo) : Bool × List ℚ :=
  if isScrollSyncing || !rendererMounted then (isScrollSyncing, [])
  else (true, [targetScrollTop e renderer])

/-- Renderer-side scroll handler, symmetric to `handleEditorScroll`. -/
def handleRendererScroll (isScrollSyncing : Bool) (editorMounted : Bool)
    (e editor : ScrollInfo) : Bool × List ℚ :=
  if isScrollSyncing || !editorMounted then (isScrollSyncing, [])
  else (true, [targetScrollTop e editor])

/-- The quiet-period delay of the `setTimeout` that resets the guard (ms). -/
def SCROLL_GUARD_MS : ℕ := 100

/-- `setTimeout(() => setIsScrollSyncing(false), 100)`: when the timer fires
the guard is cleared regardless of its current value. -/
def guardTimerFire (_ : Bool) : Bool := false

/-! ## JavaScript value model

A small model of the dynamic values the AI service manipulates after
`response.json()`: enough to express property access, optional chaining,
indexing and truthiness as used in `aiService.callAPI`.
-/

inductive JSValue where
  | undefined
  | null
  | bool (b : Bool)
  | num (q : ℚ)
  | str (s : String)
  | arr (elems : List JSValue)
  | obj (fields : List (String × JSValue))

/-- Plain property access `v.k`: looks a key up in an object, `undefined` on
any non-object (property access on primitives yields `undefined` in JS;
the throwing cases `null`/`undefined` are handled at each use site). -/
def jsGet (v : JSValue) (k : String) : JSValue :=
  match v with
  | .obj fields =>
    match fields.find? (fun p => p.1 == k) with
    | some p => p.2
    | none => .undefined
  | _ => .undefined

/-- Optional-chained access `v?.k`: short-circuits `null`/`undefined` to
`undefined`, otherwise a plain access. -/
def jsOptGet (v : JSValue) (k : String) : JSValue :=
  match v with
  | .undefined => .undefined
  | .null => .undefined
  | v => jsGet v k

/-- Optional-chained index `v?.[0]`: element 0 of an array, property "0" of an
object, first character of a string, `undefined` otherwise. -/
def jsOptIndexZero (v : JSValue) : JSValue :=
  match v with
  | .arr elems => elems.headD .undefined
  | .obj _ => jsGet v "0"
  | .str s =>
    match s.data with
    | [] => .undefined
    | c :: _ => .str ⟨[c]⟩
  | _ => .undefined

/-- JS truthiness (`!!v`); `NaN` is not modelled. -/
def jsTruthy : JSValue → Bool
  | .undefined => false
  | .null => false
  | .bool b => b
  | .num q => decide (q ≠ 0)
  | .str s => !s.isEmpty
  | .arr _ => true
  | .obj _ => true

/-- `String.prototype.trim()`: strip leading and trailing whitespace. -/
def jsTrim (s : String) : String :=
  ⟨((s.data.dropWhile Char.isWhitespace).reverse.dropWhile Char.isWhitespace).reverse⟩

/-! ## AI service (aiService.ts)

`callAPI` and the public intents are embedded as pure functions.  The single
`fetch` a call performs is abstracted by a `FetchOutcome` argument (what the
network returned for that call), and each operation also returns the list of
HTTP requests it issued, so "zero network calls" is expressible.
-/

structure AISettings where
  apiUrl : String
  apiKey : String
  model : String
  enabled : Bool
deriving DecidableEq, Repr

structure ChatMessage where
  role : String
  content : String
deriving DecidableEq, Repr

/-- The TS interface `AIResponse { success; content?; error? }` with both
payload fields optional.  `error` holds a JS value: `errorData.error?.message
|| ...` can put a non-string JSON value there. -/
structure AIResponse where
  success : Bool
  content : Option String := none
  error : Option JSValue := none

/-- JSON body of the POST to `{apiUrl}/chat/completions`. -/
structure ChatRequestBody where
  model : String
  messages : List ChatMessage
  temperature : ℚ
  max_tokens : ℕ
  stream : Bool

/-- An HTTP request issued by the service (with its bearer token). -/
inductive HttpRequest where
  | post (url : String) (bearer : String) (body : ChatRequestBody)
  | get (url : String) (bearer : String)

def HttpRequest.temperature : HttpRequest → Option ℚ
  | .post _ _ b => some b.temperature
  | .get _ _ => none

def HttpRequest.maxTokens : HttpRequest → Option ℕ
  | .post _ _ b => some b.max_tokens
  | .get _ _ => none

/-- Outcome of the one `fetch` of a call:
`throwErr msg` – the fetch rejected (`msg = some m` when the thrown value is
an `Error` with message `m`);
`resp ok status body` – a response arrived; `body` is `.ok v` when
`response.json()` resolves to `v` and `.error m` when it rejects with an
`Error` carrying message `m`. -/
inductive FetchOutcome where
  | throwErr (msg : Option String)
  | resp (ok : Bool) (status : ℕ) (body : Except String JSValue)

/-- Options argument of `callAPI`. -/
structure CallOptions where
  temperature : Option ℚ := none
  maxTokens : Option ℕ := none
  stream : Option Bool := none

/-- JS `x || d` for an optional numeric field: `0` is falsy. -/
def orDefaultQ (o : Option ℚ) (d : ℚ) : ℚ :=
  match o with
  | none => d
  | some t => if t = 0 then d else t

/-- JS `x || d` for the `max_tokens` field. -/
def orDefaultN (o : Option ℕ) (d : ℕ) : ℕ :=
  match o with
  | none => d
  | some t => if t = 0 then d else t

/-- JS `x || false`. -/
def orDefaultB (o : Option Bool) : Bool :=
  match o with
  | none => false
  | some b => b

/-- `isAvailable()`:
`!!this.settings && this.settings.enabled && !!this.settings.apiKey && !!this.settings.apiUrl`. -/
def isAvailable : Option AISettings → Bool
  | none => false
  | some s => s.enabled && !s.apiKey.isEmpty && !s.apiUrl.isEmpty

/-- The uniform not-configured failure of `callAPI` and `testConnection`. -/
def notConfigured : AIResponse :=
  { success := false, error := some (.str "AI服务未配置或未启用") }

/-- `data.choices?.[0]?.message?.content`.  The unguarded first access
`data.choices` throws a `TypeError` when `data` itself is `null` (a JSON body
of `null`); that is returned as `.error` and feeds the surrounding catch. -/
def extractContent (data : JSValue) : Except String JSValue :=
  match data with
  | .null => .error "Cannot read properties of null (reading 'choices')"
  | .undefined => .error "Cannot read properties of undefined (reading 'choices')"
  | _ => .ok (jsOptGet (jsOptIndexZero (jsGet data "choices")) "message" |> (jsOptGet · "content"))

/-- `callAPI(messages, options)` under network outcome `net`: the normalized
`AIResponse` together with the HTTP requests issued. -/
def callAPI (settings : Option AISettings) (messages : List ChatMessage)
    (options : CallOptions) (net : FetchOutcome) : AIResponse × List HttpRequest :=
  if !isAvailable settings then (notConfigured, [])
  else
    match settings with
    | none => (notConfigured, [])  -- unreachable: isAvailable none = false
    | some s =>
      let req : HttpRequest := .post (s.apiUrl ++ "/chat/completions") s.apiKey
        { model := s.model
          messages := messages
          temperature := orDefaultQ options.temperature 0.7
          max_tokens := orDefaultN options.maxTokens 1000
          stream := orDefaultB options.stream }
      match net with
      | .throwErr msg =>
        -- catch: error instanceof Error ? error.message : '网络请求失败'
        ({ success := false, error := some (.str (msg.getD "网络请求失败")) }, [req])
      | .resp ok status body =>
        if !ok then
          -- const errorData = await response.json().catch(() => ({}))
          let errorData := match body with | .ok v => v | .error _ => .obj []
          match errorData with
          | .null =>
            -- errorData.error?.message: the plain access on null throws; caught below
            ({ success := false,
               error := some (.str "Cannot read properties of null (reading 'error')") }, [req])
          | _ =>
            let m := jsOptGet (jsGet errorData "error") "message"
            ({ success := false,
               error := some (if jsTruthy m then m
                              else .str ("API请求失败: " ++ toString status)) }, [req])
        else
          match body with
          | .error m =>
            -- await response.json() rejected; caught with the Error's message
            ({ success := false, error := some (.str m) }, [req])
          | .ok data =>
            match extractContent data with
            | .error m =>
              ({ success := false, error := some (.str m) }, [req])
            | .ok content =>
              if !jsTruthy content then
                ({ success := false, error := some (.str "AI响应格式错误") }, [req])
              else
                match content with
                | .str str => ({ success := true, content := some (jsTrim str) }, [req])
                | _ =>
                  -- content.trim() on a truthy non-string throws; caught
                  ({ success := false,
                     error := some (.str "content.trim is not a function") }, [req])

/-- `continueText(text, context?)`. -/
def continueText (settings : Option AISettings) (text : String) (context : Option String)
    (net : FetchOutcome) : AIResponse × List HttpRequest :=
  callAPI settings
    [ { role := "system"
        content := "你是一个专业的写作助手。请根据用户提供的文本内容，自然地续写下去。保持原文的风格和语调。"
          ++ (match context with | some c => "\n\n上下文：" ++ c | none => "") }
      , { role := "user", content := "请续写以下文本：\n\n" ++ text } ]
    { temperature := some 0.8, maxTokens := some 500 } net

/-- `optimizeContent(text)`. -/
def optimizeContent (settings : Option AISettings) (text : String)
    (net : FetchOutcome) : AIResponse × List HttpRequest :=
  callAPI settings
    [ { role := "system"
        content := "你是一个专业的文本编辑助手。请帮助用户优化文本内容，改善语法、表达和结构，使其更加清晰、流畅和专业。保持原意不变。" }
      , { role := "user", content := "请优化以下文本：\n\n" ++ text } ]
    { temperature := some 0.3, maxTokens := some 800 } net

/-- `checkGrammar(text)`. -/
def checkGrammar (settings : Option AISettings) (text : String)
    (net : FetchOutcome) : AIResponse × List HttpRequest :=
  callAPI settings
    [ { role := "system"
        content := "你是一个专业的语法检查助手。请检查文本中的语法错误、拼写错误和表达问题，并提供修正建议。如果没有错误，请说明文本语法正确。" }
      , { role := "user", content := "请检查以下文本的语法：\n\n" ++ text } ]
    { temperature := some 0.2, maxTokens := some 600 } net

/-- `translateText(text, targetLanguage = '英文')`. -/
def translateText (settings : Option AISettings) (text : String) (targetLanguage : String)
    (net : FetchOutcome) : AIResponse × List HttpRequest :=
  callAPI settings
    [ { role := "system"
        content := "你是一个专业的翻译助手。请将用户提供的文本翻译成" ++ targetLanguage ++ "，保持原意和语调。" }
      , { role := "user", content := "请将以下文本翻译成" ++ targetLanguage ++ "：\n\n" ++ text } ]
    { temperature := some 0.3, maxTokens := some 800 } net

/-- The `length` argument of `generateSummary`. -/
inductive SummaryLength | short | medium | long
deriving DecidableEq, Repr

def summaryLengthWord : SummaryLength → String
  | .short => "简短"
  | .medium => "中等长度"
  | .long => "详细"

def summaryMaxTokens : SummaryLength → ℕ
  | .short => 200
  | .medium => 400
  | .long => 600

/-- `generateSummary(text, length = 'medium')`. -/
def generateSummary (settings : Option AISettings) (text : String) (length : SummaryLength)
    (net : FetchOutcome) : AIResponse × List HttpRequest :=
  callAPI settings
    [ { role := "system"
        content := "你是一个专业的摘要生成助手。请为用户提供的文本生成" ++ summaryLengthWord length
          ++ "的摘要，突出关键信息和要点。" }
      , { role := "user", content := "请为以下文本生成摘要：\n\n" ++ text } ]
    { temperature := some 0.3, maxTokens := some (summaryMaxTokens length) } net

/-- `generateTitle(text)`. -/
def generateTitle (settings : Option AISettings) (text : String)
    (net : FetchOutcome) : AIResponse × List HttpRequest :=
  callAPI settings
    [ { role := "system"
        content := "你是一个专业的标题生成助手。请为用户提供的文本内容生成3-5个吸引人且准确的标题选项。" }
      , { role := "user", content := "请为以下文本生成标题：\n\n" ++ text } ]
    { temperature := some 0.6, maxTokens := some 200 } net

/-- `customPrompt(text, prompt)`. -/
def customPrompt (settings : Option AISettings) (text : String) (prompt : String)
    (net : FetchOutcome) : AIResponse × List HttpRequest :=
  callAPI settings
    [ { role := "system", content := prompt }
      , { role := "user", content := text } ]
    { temperature := some 0.7, maxTokens := some 800 } net

/-- `testConnection()`: a GET to `{apiUrl}/models`; content is never
extracted, only `response.ok` is inspected. -/
def testConnection (settings : Option AISettings) (net : FetchOutcome) :
    AIResponse × List HttpRequest :=
  if !isAvailable settings then (notConfigured, [])
  else
    match settings with
    | none => (notConfigured, [])  -- unreachable: isAvailable none = false
    | some s =>
      let req : HttpRequest := .get (s.apiUrl ++ "/models") s.apiKey
      match net with
      | .throwErr _ => ({ success := false, error := some (.str "网络连接失败") }, [req])
      | .resp ok _ _ =>
        if ok then ({ success := true, content := some "AI API连接成功" }, [req])
        else ({ success := false, error := some (.str "AI API连接失败，请检查配置") }, [req])

/-! ## File routes (src/api/routes/files.ts)

The file-content endpoint joins the requested path onto `PROJECT_ROOT`
(normalizing `.` and `..`) and accepts it when the resulting absolute path
string starts with `PROJECT_ROOT`.  Paths are modelled as strings over `/`. -/

/-- `isInitialOf a b`: the list `a` is an initial segment of `b`. -/
def isInitialOf [BEq α] : List α → List α → Bool
  | [], _ => true
  | _ :: _, [] => false
  | a :: as, b :: bs => a == b && isInitialOf as bs

/-- JS `String.prototype.startsWith` over the character lists. -/
def jsStartsWith (s pre : String) : Bool := isInitialOf pre.data s.data

/-- Split a string on `/` into segments, dropping empty and `.` segments. -/
def splitSegsAux : List Char → List (List Char)
  | [] => [[]]
  | c :: cs =>
    let rest := splitSegsAux cs
    if c = '/' then [] :: rest
    else
      match rest with
      | [] => [[c]]
      | seg :: segs => (c :: seg) :: segs

def splitSegs (s : String) : List String :=
  ((splitSegsAux s.data).map (fun cs => String.mk cs)).filter (fun seg => seg ≠ "" && seg ≠ ".")

/-- Resolve `..` segments against what precedes them; at the root, excess
`..` segments are dropped (absolute-path normalization). -/
def normSegs (segs : List String) : List String :=
  segs.foldl (fun acc seg => if seg = ".." then acc.dropLast else acc ++ [seg]) []

/-- `path.join(PROJECT_ROOT, p)` for an absolute root: concatenate and
normalize, rendering back to an absolute path string. -/
def resolvedPath (root p : String) : String :=
  "/" ++ String.intercalate "/" (normSegs (splitSegs (root ++ "/" ++ p)))

/-- The route's security check: `absolutePath.startsWith(PROJECT_ROOT)`. -/
def passesRootCheck (root p : String) : Bool :=
  jsStartsWith (resolvedPath root p) root

/-- Ground truth for "resolves inside the project root": the root's segment
list is an initial segment of the resolved path's segment list. -/
def underRoot (root p : String) : Bool :=
  isInitialOf (normSegs (splitSegs root)) (normSegs (splitSegs (root ++ "/" ++ p)))

/-! ### File-tree listing (`buildFileTree`) -/

/-- A directory entry as seen by `fs.readdir(..., { withFileTypes: true })`. -/
structure DirEntry where
  name : String
  isDirectory : Bool
deriving DecidableEq, Repr

/-- The filter of `buildFileTree`: drop dotfiles other than `.gitignore` and
`.env.example`, and drop the build-output directories. -/
def keepEntry (e : DirEntry) : Bool :=
  if jsStartsWith e.name "." && e.name != ".gitignore" && e.name != ".env.example" then false
  else if ["node_modules", "dist", "dist-electron", "build", "release"].contains e.name then false
  else true

/-- Code-unit lexicographic `≤` on characters lists, modelling
`title.localeCompare` as used by the sort comparator. -/
def lexLe : List Char → List Char → Bool
  | [], _ => true
  | _ :: _, [] => false
  | a :: as, b :: bs =>
    if a.toNat < b.toNat then true
    else if b.toNat < a.toNat then false
    else lexLe as bs

def strLe (a b : String) : Bool := lexLe a.data b.data

/-- The sort comparator as a boolean `≤`: folders strictly before files,
within a group ordered by name. -/
def nodeLe (a b : DirEntry) : Bool :=
  if a.isDirectory != b.isDirectory then a.isDirectory
  else strLe a.name b.name

def nodeLeR (a b : DirEntry) : Prop := nodeLe a b = true

instance : DecidableRel nodeLeR := fun a b => inferInstanceAs (Decidable (nodeLe a b = true))

/-- One directory level of `buildFileTree`: filter, then sort with the
comparator (`Array.prototype.sort`, modelled by insertion sort). -/
def listDirectory (entries : List DirEntry) : List DirEntry :=
  List.insertionSort nodeLeR (entries.filter keepEntry)

/-! ## Theorems -/

/-- C1: a scroll event from one surface with `scrollHeight > clientHeight`,
handled while the guard is inactive, computes
`ratio = scrollTop / (scrollHeight - clientHeight)` (`0` when
`scrollHeight ≤ clientHeight`) and commands the other surface to
`ratio * max 0 (scrollHeightB - clientHeightB)`, which puts the other surface
at the same scroll fraction. -/
theorem scroll_sync_same_fraction (e other : ScrollInfo)
    (hA : e.scrollHeight > e.clientHeight)
    (hB : other.scrollHeight > other.clientHeight) :
    scrollRatio e = e.scrollTop / (e.scrollHeight - e.clientHeight)
    ∧ (∀ e2 : ScrollInfo, e2.scrollHeight ≤ e2.clientHeight → scrollRatio e2 = 0)
    ∧ handleEditorScroll false true e other = (true, [targetScrollTop e other])
    ∧ handleRendererScroll false true e other = (true, [targetScrollTop e other])
    ∧ targetScrollTop e other / (other.scrollHeight - other.clientHeight) = scrollRatio e := by
  refine ⟨by simp [scrollRatio, hA], ?_, rfl, rfl, ?_⟩
  · intro e2 h2
    simp [scrollRatio, not_lt.mpr h2]
  · have hd : other.scrollHeight - other.clientHeight > 0 := by linarith
    rw [targetScrollTop, max_eq_right (le_of_lt hd)]
    exact mul_div_cancel_right₀ _ (ne_of_gt hd)

/-- Witness for `scroll_sync_same_fraction` at a concrete pair of surfaces. -/
theorem scroll_sync_same_fraction_witness :
    (⟨50, 200, 100⟩ : ScrollInfo).scrollHeight > (⟨50, 200, 100⟩ : ScrollInfo).clientHeight
    ∧ targetScrollTop ⟨50, 200, 100⟩ ⟨0, 400, 100⟩
        / ((⟨0, 400, 100⟩ : ScrollInfo).scrollHeight - (⟨0, 400, 100⟩ : ScrollInfo).clientHeight)
      = scrollRatio ⟨50, 200, 100⟩ :=
  ⟨by norm_num,
   (scroll_sync_same_fraction ⟨50, 200, 100⟩ ⟨0, 400, 100⟩ (by norm_num) (by norm_num)).2.2.2.2⟩

/-- C2: while the guard is active both handlers drop the event — no outbound
command, the state is unchanged and nothing is queued; in every state at most
one outbound command is issued per event; the guard is only cleared by the
quiet timer firing (after the fixed 100 ms delay). -/
theorem scroll_guard_drops_events :
    (∀ (mounted : Bool) (e other : ScrollInfo),
        handleEditorScroll true mounted e other = (true, [])
        ∧ handleRendererScroll true mounted e other = (true, []))
    ∧ (∀ (g mounted : Bool) (e other : ScrollInfo),
        (handleEditorScroll g mounted e other).2.length ≤ 1
        ∧ (handleRendererScroll g mounted e other).2.length ≤ 1)
    ∧ guardTimerFire true = false ∧ SCROLL_GUARD_MS = 100 := by
  refine ⟨fun mounted e other => ⟨rfl, rfl⟩, fun g mounted e other => ⟨?_, ?_⟩, rfl, rfl⟩
  · unfold handleEditorScroll
    split <;> simp
  · unfold handleRendererScroll
    split <;> simp

/-! ### AI-service helper lemmas -/

theorem callAPI_unavailable {settings : Option AISettings} (msgs : List ChatMessage)
    (opts : CallOptions) (net : FetchOutcome) (h : isAvailable settings = false) :
    callAPI settings msgs opts net = (notConfigured, []) := by
  unfold callAPI
  simp [h]

theorem testConnection_unavailable {settings : Option AISettings} (net : FetchOutcome)
    (h : isAvailable settings = false) :
    testConnection settings net = (notConfigured, []) := by
  unfold testConnection
  simp [h]

theorem isAvailable_iff (settings : Option AISettings) :
    isAvailable settings = true ↔
      ∃ s : AISettings, settings = some s ∧ s.enabled = true ∧ s.apiKey ≠ "" ∧ s.apiUrl ≠ "" := by
  cases settings with
  | none => simp [isAvailable]
  | some s =>
    simp only [isAvailable, Bool.and_eq_true, Bool.not_eq_true']
    constructor
    · rintro ⟨⟨he, hk⟩, hu⟩
      refine ⟨s, rfl, he, ?_, ?_⟩
      · intro hk0
        rw [hk0] at hk
        exact absurd hk (by decide)
      · intro hu0
        rw [hu0] at hu
        exact absurd hu (by decide)
    · rintro ⟨s', hs', he, hk, hu⟩
      cases Option.some_injective _ hs'
      refine ⟨⟨he, ?_⟩, ?_⟩
      · cases hk' : s.apiKey.isEmpty
        · rfl
        · exact absurd ((String.isEmpty_iff s.apiKey).mp hk') hk
      · cases hu' : s.apiUrl.isEmpty
        · rfl
        · exact absurd ((String.isEmpty_iff s.apiUrl).mp hu') hu

/-- C3: `isAvailable` holds exactly when settings are present with `enabled`
and non-empty `apiUrl`/`apiKey`; every intent invoked while unavailable
returns the uniform not-configured failure and issues zero HTTP requests. -/
theorem ai_unavailable_fails_fast :
    (∀ settings : Option AISettings,
        isAvailable settings = true ↔
          ∃ s : AISettings, settings = some s ∧ s.enabled = true ∧ s.apiKey ≠ "" ∧ s.apiUrl ≠ "")
    ∧ (∀ (settings : Option AISettings) (net : FetchOutcome),
        isAvailable settings = false →
        ∀ (text lang prompt : String) (ctx : Option String) (len : SummaryLength),
          continueText settings text ctx net = (notConfigured, [])
          ∧ optimizeContent settings text net = (notConfigured, [])
          ∧ checkGrammar settings text net = (notConfigured, [])
          ∧ translateText settings text lang net = (notConfigured, [])
          ∧ generateSummary settings text len net = (notConfigured, [])
          ∧ generateTitle settings text net = (notConfigured, [])
          ∧ customPrompt settings text prompt net = (notConfigured, [])
          ∧ testConnection settings net = (notConfigured, []))
    ∧ notConfigured.success = false
    ∧ notConfigured.error = some (.str "AI服务未配置或未启用") := by
  refine ⟨isAvailable_iff, ?_, rfl, rfl⟩
  intro settings net h text lang prompt ctx len
  exact ⟨callAPI_unavailable _ _ _ h, callAPI_unavailable _ _ _ h, callAPI_unavailable _ _ _ h,
    callAPI_unavailable _ _ _ h, callAPI_unavailable _ _ _ h, callAPI_unavailable _ _ _ h,
    callAPI_unavailable _ _ _ h, testConnection_unavailable _ h⟩

/-- Witness: with settings disabled, `continueText` is the not-configured
failure and issues no request. -/
theorem ai_unavailable_fails_fast_witness :
    continueText (some ⟨"http://api.example", "key", "gpt", false⟩) "hello" none
        (.throwErr none) = (notConfigured, []) :=
  (ai_unavailable_fails_fast.2.1 (some ⟨"http://api.example", "key", "gpt", false⟩)
    (.throwErr none) (by decide) "hello" "" "" none .medium).1

/-- Shape of the result on a successful-status response with parsed body. -/
theorem callAPI_resp_ok (s : AISettings) (msgs : List ChatMessage) (opts : CallOptions)
    (status : ℕ) (data : JSValue) (h : isAvailable (some s) = true) :
    (callAPI (some s) msgs opts (.resp true status (.ok data))).1 =
      match extractContent data with
      | .error m => { success := false, error := some (.str m) }
      | .ok content =>
        if !jsTruthy content then
          { success := false, error := some (.str "AI响应格式错误") }
        else
          match content with
          | .str str => { success := true, content := some (jsTrim str) }
          | _ => { success := false, error := some (.str "content.trim is not a function") } := by
  unfold callAPI
  simp only [h, Bool.not_true, Bool.false_eq_true, if_false]
  rcases hec : extractContent data with m | content <;> simp only [hec]
  split
  · rfl
  · split <;> rfl

/-- Shape of the result on a non-success-status response. -/
theorem callAPI_resp_notOk (s : AISettings) (msgs : List ChatMessage) (opts : CallOptions)
    (status : ℕ) (body : Except String JSValue) (h : isAvailable (some s) = true) :
    (callAPI (some s) msgs opts (.resp false status body)).1 =
      (match (match body with | .ok v => v | .error _ => JSValue.obj []) with
       | .null =>
         { success := false,
           error := some (.str "Cannot read properties of null (reading 'error')") }
       | errorData =>
         let m := jsOptGet (jsGet errorData "error") "message"
         { success := false,
           error := some (if jsTruthy m then m
                          else .str ("API请求失败: " ++ toString status)) }) := by
  unfold callAPI
  simp only [h, Bool.not_true, Bool.false_eq_true, if_false, Bool.not_false, if_true]
  split <;> rfl

/-- Shape of the result when the fetch itself rejects. -/
theorem callAPI_throw (s : AISettings) (msgs : List ChatMessage) (opts : CallOptions)
    (msg : Option String) (h : isAvailable (some s) = true) :
    (callAPI (some s) msgs opts (.throwErr msg)).1 =
      { success := false, error := some (.str (msg.getD "网络请求失败")) } := by
  unfold callAPI
  simp only [h, Bool.not_true, Bool.false_eq_true, if_false]

/-- The requests a call issues when the service is available: exactly one
POST to `{apiUrl}/chat/completions`, whatever the network outcome. -/
theorem callAPI_requests (s : AISettings) (msgs : List ChatMessage) (opts : CallOptions)
    (net : FetchOutcome) (h : isAvailable (some s) = true) :
    (callAPI (some s) msgs opts net).2 =
      [.post (s.apiUrl ++ "/chat/completions") s.apiKey
        { model := s.model, messages := msgs,
          temperature := orDefaultQ opts.temperature 0.7,
          max_tokens := orDefaultN opts.maxTokens 1000,
          stream := orDefaultB opts.stream }] := by
  unfold callAPI
  simp only [h, Bool.not_true, Bool.false_eq_true, if_false]
  repeat' split
  all_goals rfl

/-- C5: while available, a successful-status response whose body lacks
`choices[0].message.content` yields the malformed-response failure; a network
throw or a body-parse failure is caught and normalized to a failure result;
a `null` 200-body also fails (caught property-access fault). -/
theorem malformed_response_and_network_failures (s : AISettings) (msgs : List ChatMessage)
    (opts : CallOptions) (status : ℕ) (h : isAvailable (some s) = true) :
    (∀ data : JSValue, extractContent data = .ok .undefined →
        (callAPI (some s) msgs opts (.resp true status (.ok data))).1
          = { success := false, error := some (.str "AI响应格式错误") })
    ∧ (∀ m : String, (callAPI (some s) msgs opts (.throwErr (some m))).1
          = { success := false, error := some (.str m) })
    ∧ ((callAPI (some s) msgs opts (.throwErr none)).1
          = { success := false, error := some (.str "网络请求失败") })
    ∧ (∀ m : String, (callAPI (some s) msgs opts (.resp true status (.error m))).1
          = { success := false, error := some (.str m) })
    ∧ ((callAPI (some s) msgs opts (.resp true status (.ok .null))).1
          = { success := false,
              error := some (.str "Cannot read properties of null (reading 'choices')") }) := by
  refine ⟨?_, ?_, ?_, ?_, ?_⟩
  · intro data hec
    rw [callAPI_resp_ok s msgs opts status data h, hec]
    rfl
  · intro m
    rw [callAPI_throw s msgs opts (some m) h]
    rfl
  · rw [callAPI_throw s msgs opts none h]
    rfl
  · intro m
    unfold callAPI
    simp only [h, Bool.not_true, Bool.false_eq_true, if_false]
  · rw [callAPI_resp_ok s msgs opts status .null h]
    rfl

/-- Witness for `malformed_response_and_network_failures`: a 200 response
with body `{}` (no `choices`) fails with the malformed-response message. -/
theorem malformed_response_and_network_failures_witness :
    (callAPI (some ⟨"http://api.example", "key", "gpt", true⟩) [] {}
        (.resp true 200 (.ok (.obj [])))).1
      = { success := false, error := some (.str "AI响应格式错误") } :=
  (malformed_response_and_network_failures ⟨"http://api.example", "key", "gpt", true⟩ [] {} 200
    (by decide)).1 (.obj []) rfl

/-- C10: on a successful-status response the call succeeds exactly when
`choices[0].message.content` is a non-empty string, the returned content is
that string trimmed, and a present-but-empty string content is the
malformed-response failure. -/
theorem success_iff_nonempty_content_trimmed (s : AISettings) (msgs : List ChatMessage)
    (opts : CallOptions) (status : ℕ) (data : JSValue) (h : isAvailable (some s) = true) :
    ((callAPI (some s) msgs opts (.resp true status (.ok data))).1.success = true
      ↔ ∃ str : String, extractContent data = .ok (.str str) ∧ str ≠ "")
    ∧ (∀ str : String, extractContent data = .ok (.str str) → str ≠ "" →
        (callAPI (some s) msgs opts (.resp true status (.ok data))).1
          = { success := true, content := some (jsTrim str) })
    ∧ (extractContent data = .ok (.str "") →
        (callAPI (some s) msgs opts (.resp true status (.ok data))).1
          = { success := false, error := some (.str "AI响应格式错误") }) := by
  rw [callAPI_resp_ok s msgs opts status data h]
  refine ⟨?_, ?_, ?_⟩
  · rcases hec : extractContent data with m | content
    · simp [hec]
    · rcases content with _ | _ | b | q | str | elems | fields <;> simp [hec, jsTruthy]
      · cases b <;> simp
      · by_cases hq : q = 0 <;> simp [hq]
      · by_cases hs : str = ""
        · subst hs
          simp
          rfl
        · have hie : str.isEmpty = false := by
            rw [Bool.eq_false_iff, Ne, String.isEmpty_iff]
            exact hs
          simp [hie, hs]
  · intro str hec hne
    have hie : str.isEmpty = false := by
      rw [Bool.eq_false_iff, Ne, String.isEmpty_iff]
      exact hne
    simp only [hec, jsTruthy, hie, Bool.not_false, Bool.not_true, Bool.false_eq_true, if_false]
  · intro hec
    simp only [hec]
    rfl

/-- Witness for `success_iff_nonempty_content_trimmed`: whitespace-padded
content comes back trimmed. -/
theorem success_iff_nonempty_content_trimmed_witness :
    (callAPI (some ⟨"http://api.example", "key", "gpt", true⟩) [] {}
        (.resp true 200 (.ok (.obj [("choices",
          .arr [.obj [("message", .obj [("content", .str " hello ")])]])])))).1
      = { success := true, content := some (jsTrim " hello ") }
    ∧ jsTrim " hello " = "hello" :=
  ⟨(success_iff_nonempty_content_trimmed ⟨"http://api.example", "key", "gpt", true⟩ [] {} 200
      (.obj [("choices", .arr [.obj [("message", .obj [("content", .str " hello ")])]])])
      (by decide)).2.1 " hello " rfl (by decide), by decide⟩

/-- C4 counterexample: a 500 response whose body carries a present but empty
`error.message` does not get that message back; the code falls through to the
generic status message (`message` is falsy under `||`). -/
theorem error_message_empty_counterexample :
    jsOptGet (jsGet (.obj [("error", .obj [("message", .str "")])]) "error") "message" = .str ""
    ∧ (callAPI (some ⟨"http://api.example", "key", "gpt", true⟩) [] {}
        (.resp false 500 (.ok (.obj [("error", .obj [("message", .str "")])])))).1.error
        = some (.str ("API请求失败: " ++ toString 500))
    ∧ (callAPI (some ⟨"http://api.example", "key", "gpt", true⟩) [] {}
        (.resp false 500 (.ok (.obj [("error", .obj [("message", .str "")])])))).1.error
        ≠ some (.str "") := by
  have h2 : (callAPI (some ⟨"http://api.example", "key", "gpt", true⟩) [] {}
      (.resp false 500 (.ok (.obj [("error", .obj [("message", .str "")])])))).1.error
      = some (.str ("API请求失败: " ++ toString 500)) := rfl
  refine ⟨rfl, h2, ?_⟩
  rw [h2]
  intro heq
  have h3 := Option.some.inj heq
  rw [JSValue.str.injEq] at h3
  exact absurd h3 (by decide)

/-- C4 amended: on a non-success status with a non-null parsed body, the
result is a failure whose error is `error?.message` when that value is
truthy, and the generic status message when it is falsy or the body did not
parse. -/
theorem error_message_truthy_or_generic (s : AISettings) (msgs : List ChatMessage)
    (opts : CallOptions) (status : ℕ) (body : JSValue)
    (h : isAvailable (some s) = true) (hnn : body ≠ .null) :
    ((callAPI (some s) msgs opts (.resp false status (.ok body))).1.success = false)
    ∧ (jsTruthy (jsOptGet (jsGet body "error") "message") = true →
        (callAPI (some s) msgs opts (.resp false status (.ok body))).1.error
          = some (jsOptGet (jsGet body "error") "message"))
    ∧ (jsTruthy (jsOptGet (jsGet body "error") "message") = false →
        (callAPI (some s) msgs opts (.resp false status (.ok body))).1.error
          = some (.str ("API请求失败: " ++ toString status)))
    ∧ (∀ m : String,
        (callAPI (some s) msgs opts (.resp false status (.error m))).1.error
          = some (.str ("API请求失败: " ++ toString status))) := by
  refine ⟨?_, ?_, ?_, ?_⟩
  · rw [callAPI_resp_notOk s msgs opts status (.ok body) h]
    cases body <;> first | exact absurd rfl hnn | rfl
  · intro hm
    rw [callAPI_resp_notOk s msgs opts status (.ok body) h]
    cases body <;> first | exact absurd rfl hnn | simp [hm]
  · intro hm
    rw [callAPI_resp_notOk s msgs opts status (.ok body) h]
    cases body <;> first | exact absurd rfl hnn | simp [hm]
  · intro m
    rw [callAPI_resp_notOk s msgs opts status (.error m) h]
    rfl

/-- Witness for `error_message_truthy_or_generic`: body
`{"error":{"message":"boom"}}` gives back error "boom". -/
theorem error_message_truthy_or_generic_witness :
    (callAPI (some ⟨"http://api.example", "key", "gpt", true⟩) [] {}
        (.resp false 500 (.ok (.obj [("error", .obj [("message", .str "boom")])])))).1.error
      = some (.str "boom") :=
  (error_message_truthy_or_generic ⟨"http://api.example", "key", "gpt", true⟩ [] {} 500
    (.obj [("error", .obj [("message", .str "boom")])]) (by decide)
    (fun hx => JSValue.noConfusion hx)).2.1 rfl

/-- C8: the continuation request carries temperature 0.8 and max_tokens 500;
optimization and translation requests carry temperature 0.3 and max_tokens
800 — so continuation has a strictly higher temperature and a strictly
smaller token budget than both. -/
theorem intent_params_policy (s : AISettings) (net : FetchOutcome)
    (text lang : String) (ctx : Option String) (h : isAvailable (some s) = true) :
    ((continueText (some s) text ctx net).2.map HttpRequest.temperature = [some 0.8])
    ∧ ((continueText (some s) text ctx net).2.map HttpRequest.maxTokens = [some 500])
    ∧ ((optimizeContent (some s) text net).2.map HttpRequest.temperature = [some 0.3])
    ∧ ((optimizeContent (some s) text net).2.map HttpRequest.maxTokens = [some 800])
    ∧ ((translateText (some s) text lang net).2.map HttpRequest.temperature = [some 0.3])
    ∧ ((translateText (some s) text lang net).2.map HttpRequest.maxTokens = [some 800])
    ∧ (0.8 : ℚ) > 0.3 ∧ (500 : ℕ) < 800 := by
  refine ⟨?_, ?_, ?_, ?_, ?_, ?_, by norm_num, by norm_num⟩ <;>
    first
      | (unfold continueText
         rw [callAPI_requests _ _ _ _ h]
         norm_num [HttpRequest.temperature, HttpRequest.maxTokens, orDefaultQ, orDefaultN])
      | (unfold optimizeContent
         rw [callAPI_requests _ _ _ _ h]
         norm_num [HttpRequest.temperature, HttpRequest.maxTokens, orDefaultQ, orDefaultN])
      | (unfold translateText
         rw [callAPI_requests _ _ _ _ h]
         norm_num [HttpRequest.temperature, HttpRequest.maxTokens, orDefaultQ, orDefaultN])

/-- Witness for `intent_params_policy` at concrete settings. -/
theorem intent_params_policy_witness :
    (continueText (some ⟨"http://api.example", "key", "gpt", true⟩) "once upon" none
        (.throwErr none)).2.map HttpRequest.temperature = [some 0.8] :=
  (intent_params_policy ⟨"http://api.example", "key", "gpt", true⟩ (.throwErr none)
    "once upon" "英文" none (by decide)).1

/-- The AIResult invariant: a success carries content, a failure carries an
error message. -/
def wellPopulated (r : AIResponse) : Prop :=
  (r.success = true → r.content.isSome = true) ∧ (r.success = false → r.error.isSome = true)

theorem wellPopulated_mk_true (c : String) (e : Option JSValue) :
    wellPopulated ⟨true, some c, e⟩ :=
  ⟨fun _ => rfl, fun hx => Bool.noConfusion hx⟩

theorem wellPopulated_mk_false (c : Option String) (e : JSValue) :
    wellPopulated ⟨false, c, some e⟩ :=
  ⟨fun hx => Bool.noConfusion hx, fun _ => rfl⟩

theorem wellPopulated_callAPI (settings : Option AISettings) (msgs : List ChatMessage)
    (opts : CallOptions) (net : FetchOutcome) :
    wellPopulated (callAPI settings msgs opts net).1 := by
  unfold callAPI
  repeat' first | split | dsimp only
  all_goals
    first
      | exact wellPopulated_mk_false _ _
      | exact wellPopulated_mk_true _ _

theorem wellPopulated_testConnection (settings : Option AISettings) (net : FetchOutcome) :
    wellPopulated (testConnection settings net).1 := by
  unfold testConnection
  repeat' split
  all_goals
    first
      | exact wellPopulated_mk_false _ _
      | exact wellPopulated_mk_true _ _

/-- C9: every result any public operation returns is fully populated:
success implies `content` is present, failure implies `error` is present. -/
theorem airesult_fully_populated :
    ∀ (settings : Option AISettings) (net : FetchOutcome) (text lang prompt : String)
      (ctx : Option String) (len : SummaryLength) (msgs : List ChatMessage)
      (opts : CallOptions),
      wellPopulated (callAPI settings msgs opts net).1
      ∧ wellPopulated (continueText settings text ctx net).1
      ∧ wellPopulated (optimizeContent settings text net).1
      ∧ wellPopulated (checkGrammar settings text net).1
      ∧ wellPopulated (translateText settings text lang net).1
      ∧ wellPopulated (generateSummary settings text len net).1
      ∧ wellPopulated (generateTitle settings text net).1
      ∧ wellPopulated (customPrompt settings text prompt net).1
      ∧ wellPopulated (testConnection settings net).1 := by
  intro settings net text lang prompt ctx len msgs opts
  exact ⟨wellPopulated_callAPI _ _ _ _, wellPopulated_callAPI _ _ _ _,
    wellPopulated_callAPI _ _ _ _, wellPopulated_callAPI _ _ _ _,
    wellPopulated_callAPI _ _ _ _, wellPopulated_callAPI _ _ _ _,
    wellPopulated_callAPI _ _ _ _, wellPopulated_callAPI _ _ _ _,
    wellPopulated_testConnection _ _⟩

/-- Witness for `airesult_fully_populated`: an unavailable call's failure
carries an error message. -/
theorem airesult_fully_populated_witness :
    (callAPI none [] {} (.throwErr none)).1.error.isSome = true :=
  (airesult_fully_populated none (.throwErr none) "" "" "" none .medium [] {}).1.2 rfl

/-! ### File-route theorems -/

/-- C6 (code bug): the `startsWith(PROJECT_ROOT)` check is a string-prefix
test, not a path-prefix test.  With root `/repo/api`, the request
`../api-secrets/key.txt` resolves to `/repo/api-secrets/key.txt`, which
escapes the root yet passes the check, so the file is served.  (A non-prefix
escape such as `../etc/passwd` is rejected, showing the check is the only
barrier.) -/
theorem path_check_prefix_bypass :
    passesRootCheck "/repo/api" "../api-secrets/key.txt" = true
    ∧ resolvedPath "/repo/api" "../api-secrets/key.txt" = "/repo/api-secrets/key.txt"
    ∧ underRoot "/repo/api" "../api-secrets/key.txt" = false
    ∧ passesRootCheck "/repo/api" "../etc/passwd" = false
    ∧ resolvedPath "/repo/api" "../etc/passwd" = "/repo/etc/passwd" := by
  decide

theorem lexLe_total : ∀ a b : List Char, lexLe a b = true ∨ lexLe b a = true
  | [], _ => by
    left
    rfl
  | _ :: _, [] => by
    right
    rfl
  | a :: as, b :: bs => by
    rcases Nat.lt_trichotomy a.toNat b.toNat with h1 | h1 | h1
    · left
      simp [lexLe, h1]
    · have h2 : ¬ a.toNat < b.toNat := by omega
      have h3 : ¬ b.toNat < a.toNat := by omega
      rcases lexLe_total as bs with h | h
      · left
        simp [lexLe, h2, h3, h]
      · right
        simp [lexLe, h2, h3, h]
    · right
      simp [lexLe, h1]

theorem lexLe_trans : ∀ a b c : List Char,
    lexLe a b = true → lexLe b c = true → lexLe a c = true
  | [], _, _, _, _ => rfl
  | _ :: _, [], _, hab, _ => by simp [lexLe] at hab
  | _ :: _, _ :: _, [], _, hbc => by simp [lexLe] at hbc
  | a :: as, b :: bs, c :: cs, hab, hbc => by
    simp only [lexLe] at hab hbc ⊢
    rcases Nat.lt_trichotomy a.toNat b.toNat with h1 | h1 | h1
    · rcases Nat.lt_trichotomy b.toNat c.toNat with h2 | h2 | h2
      · have h3 : a.toNat < c.toNat := by omega
        simp [h3]
      · have h3 : a.toNat < c.toNat := by omega
        simp [h3]
      · have h3 : ¬ b.toNat < c.toNat := by omega
        simp [h3, h2] at hbc
    · rcases Nat.lt_trichotomy b.toNat c.toNat with h2 | h2 | h2
      · have h3 : a.toNat < c.toNat := by omega
        simp [h3]
      · have h4 : ¬ a.toNat < b.toNat := by omega
        have h5 : ¬ b.toNat < a.toNat := by omega
        have h6 : ¬ b.toNat < c.toNat := by omega
        have h7 : ¬ c.toNat < b.toNat := by omega
        have h8 : ¬ a.toNat < c.toNat := by omega
        have h9 : ¬ c.toNat < a.toNat := by omega
        simp only [h4, if_false, h5, if_neg] at hab
        simp only [h6, if_false, h7, if_neg] at hbc
        simp only [h8, if_false, h9, if_neg]
        exact lexLe_trans as bs cs hab hbc
      · have h3 : ¬ b.toNat < c.toNat := by omega
        simp [h3, h2] at hbc
    · have h3 : ¬ a.toNat < b.toNat := by omega
      simp [h3, h1] at hab

theorem nodeLe_total (a b : DirEntry) : nodeLe a b = true ∨ nodeLe b a = true := by
  unfold nodeLe strLe
  cases ha : a.isDirectory <;> cases hb : b.isDirectory <;> simp
  · exact lexLe_total a.name.data b.name.data
  · exact lexLe_total a.name.data b.name.data

theorem nodeLe_trans {a b c : DirEntry} (hab : nodeLe a b = true) (hbc : nodeLe b c = true) :
    nodeLe a c = true := by
  unfold nodeLe strLe at hab hbc ⊢
  cases ha : a.isDirectory <;> cases hb : b.isDirectory <;> cases hc : c.isDirectory <;>
    simp [ha, hb, hc] at hab hbc ⊢ <;>
    exact lexLe_trans _ _ _ hab hbc

instance : IsTotal DirEntry nodeLeR := ⟨nodeLe_total⟩

instance : IsTrans DirEntry nodeLeR := ⟨fun _ _ _ => nodeLe_trans⟩

/-- C7: the listing keeps exactly the non-excluded entries (dotfiles outside
the allow-list and the build directories are dropped), is ordered by the
comparator (all folders before all files, each group by name), and the
spec's concrete directory lists as exactly `a.md`, `b.txt`. -/
theorem file_tree_filter_sort (entries : List DirEntry) :
    (∀ e : DirEntry, keepEntry e = false ↔
        (jsStartsWith e.name "." = true ∧ e.name ≠ ".gitignore" ∧ e.name ≠ ".env.example")
        ∨ e.name ∈ ["node_modules", "dist", "dist-electron", "build", "release"])
    ∧ (∀ e : DirEntry, e ∈ listDirectory entries ↔ e ∈ entries ∧ keepEntry e = true)
    ∧ (listDirectory entries).Pairwise nodeLeR
    ∧ listDirectory [⟨".git", true⟩, ⟨"node_modules", true⟩, ⟨"a.md", false⟩, ⟨"b.txt", false⟩]
        = [⟨"a.md", false⟩, ⟨"b.txt", false⟩] := by
  refine ⟨?_, ?_, ?_, by decide⟩
  · intro e
    unfold keepEntry
    constructor
    · intro hf
      by_cases h1 : (jsStartsWith e.name "." && e.name != ".gitignore"
          && e.name != ".env.example") = true
      · simp only [Bool.and_eq_true, bne_iff_ne] at h1
        exact Or.inl ⟨h1.1.1, h1.1.2, h1.2⟩
      · rw [if_neg h1] at hf
        by_cases h2 : ["node_modules", "dist", "dist-electron", "build",
            "release"].contains e.name = true
        · right
          exact List.elem_iff.mp h2
        · rw [if_neg h2] at hf
          exact absurd hf (by decide)
    · intro hor
      rcases hor with ⟨hdot, hgi, henv⟩ | hmem
      · rw [if_pos]
        simp only [Bool.and_eq_true, bne_iff_ne]
        exact ⟨⟨hdot, hgi⟩, henv⟩
      · by_cases h1 : (jsStartsWith e.name "." && e.name != ".gitignore"
            && e.name != ".env.example") = true
        · rw [if_pos h1]
        · rw [if_neg h1, if_pos (List.elem_iff.mpr hmem)]
  · intro e
    unfold listDirectory
    rw [List.Perm.mem_iff (List.perm_insertionSort nodeLeR _), List.mem_filter]
  · exact List.sorted_insertionSort nodeLeR _

/-- Witness for `file_tree_filter_sort`: the spec's directory instantiation. -/
theorem file_tree_filter_sort_witness :
    listDirectory [⟨".git", true⟩, ⟨"node_modules", true⟩, ⟨"a.md", false⟩, ⟨"b.txt", false⟩]
      = [⟨"a.md", false⟩, ⟨"b.txt", false⟩] :=
  (file_tree_filter_sort []).2.2.2

end LearnSolo
